import Mathlib

/-!
Shallow embedding of the GlonaxAgent repository's protocol, session, RPC and
RTC core, translated from the Python sources:

  * `src/glonax/message.py`   — payload codecs (Control, Instance, ModuleStatus,
    Engine, Motion)
  * `src/glonax/client.py`    — wire frame reader/writer, Session handshake,
    message factory, recv
  * `src/glonax_agent/jsonrpc.py` and `src/rpc.py` — the two JSON-RPC engine
    revisions
  * `src/rtc_server.py`       — RTC tunnel singleton state machine
  * `src/machine.py`          — MachineService.feed cache

Conventions: Python `bytes` are `List Nat` (one entry per byte); Python `str`
payload fields are modelled by their UTF-8 byte sequences (the fields involved
are ASCII, where `len(s)` equals the byte length); fallible Python code returns
`Except PyErr`; `struct.pack/unpack` width mismatches are `PyErr.structError`,
out-of-range indexing is `PyErr.indexError`, enum-construction failures are
`PyErr.valueError`, and so on, mirroring the exception actually raised.
-/

namespace Glonax

/-- The Python exceptions that the embedded code can raise. -/
inductive PyErr where
  | structError
  | indexError
  | valueError (msg : String)
  | validationError
  | protocolError (msg : String)
  | incompleteRead
  | runtimeError (msg : String)
  | notImplemented (msg : String)
  | deprecation (msg : String)
  | typeError
  | attributeError
  deriving DecidableEq, Repr

/-- `struct.pack("B", n)`: one byte, erroring outside 0..255. -/
def pack8 (n : Nat) : Except PyErr (List Nat) :=
  if n < 256 then .ok [n] else .error .structError

/-- `struct.pack(">H", n)`: big-endian u16, erroring outside 0..65535. -/
def pack16 (n : Nat) : Except PyErr (List Nat) :=
  if n < 65536 then .ok [n / 256, n % 256] else .error .structError

/-- `struct.pack(">h", i)`: big-endian i16, erroring outside -32768..32767. -/
def packI16 (i : Int) : Except PyErr (List Nat) :=
  if -32768 ≤ i ∧ i < 32768 then
    .ok [(i.emod 65536).toNat / 256, (i.emod 65536).toNat % 256]
  else .error .structError

/-- `struct.unpack("B", b)[0]`: requires exactly one byte. -/
def unpackU8 (l : List Nat) : Except PyErr Nat :=
  match l with
  | [a] => .ok a
  | _ => .error .structError

/-- `struct.unpack(">H", b)[0]`: requires exactly two bytes. -/
def unpackU16 (l : List Nat) : Except PyErr Nat :=
  match l with
  | [a, b] => .ok (a * 256 + b)
  | _ => .error .structError

/-- `struct.unpack(">h", b)[0]`: requires exactly two bytes, sign-extended. -/
def unpackI16 (l : List Nat) : Except PyErr Int :=
  match l with
  | [a, b] =>
      let v := a * 256 + b
      .ok (if v < 32768 then (v : Int) else (v : Int) - 65536)
  | _ => .error .structError

/-- `data[i]`: Python indexing, `IndexError` past the end. -/
def pyIndex (l : List Nat) (i : Nat) : Except PyErr Nat :=
  match l.get? i with
  | some b => .ok b
  | none => .error .indexError

/-- `MessageType` from `src/glonax/client.py`. -/
inductive MessageType where
  | ERROR | ECHO | SESSION | SHUTDOWN | REQUEST | INSTANCE | STATUS
  | MOTION | SIGNAL | ACTOR | VMS | GNSS | ENGINE | TARGET | CONTROL | ROTATOR
  deriving DecidableEq, Repr

/-- Wire code of each message type. -/
def MessageType.toNat : MessageType → Nat
  | .ERROR => 0x00
  | .ECHO => 0x01
  | .SESSION => 0x10
  | .SHUTDOWN => 0x11
  | .REQUEST => 0x12
  | .INSTANCE => 0x15
  | .STATUS => 0x16
  | .MOTION => 0x20
  | .SIGNAL => 0x31
  | .ACTOR => 0x40
  | .VMS => 0x41
  | .GNSS => 0x42
  | .ENGINE => 0x43
  | .TARGET => 0x44
  | .CONTROL => 0x45
  | .ROTATOR => 0x46

/-- `MessageType(n)`: enum construction, `ValueError` on an unknown code. -/
def MessageType.ofNat? (n : Nat) : Except PyErr MessageType :=
  match n with
  | 0x00 => .ok .ERROR
  | 0x01 => .ok .ECHO
  | 0x10 => .ok .SESSION
  | 0x11 => .ok .SHUTDOWN
  | 0x12 => .ok .REQUEST
  | 0x15 => .ok .INSTANCE
  | 0x16 => .ok .STATUS
  | 0x20 => .ok .MOTION
  | 0x31 => .ok .SIGNAL
  | 0x40 => .ok .ACTOR
  | 0x41 => .ok .VMS
  | 0x42 => .ok .GNSS
  | 0x43 => .ok .ENGINE
  | 0x44 => .ok .TARGET
  | 0x45 => .ok .CONTROL
  | 0x46 => .ok .ROTATOR
  | _ => .error (.valueError "Unknown message type code")

/-- `ControlType` from `src/glonax/message.py`. -/
inductive ControlType where
  | HYDRAULIC_QUICK_DISCONNECT | HYDRAULIC_LOCK | HYDRAULIC_BOOST
  | HYDRAULIC_BOOM_CONFLUX | HYDRAULIC_ARM_CONFLUX | HYDRAULIC_BOOM_FLOAT
  | MACHINE_SHUTDOWN | MACHINE_ILLUMINATION | MACHINE_LIGHTS | MACHINE_HORN
  | MACHINE_STROBE_LIGHT | MACHINE_TRAVEL_ALARM
  deriving DecidableEq, Repr

def ControlType.toNat : ControlType → Nat
  | .HYDRAULIC_QUICK_DISCONNECT => 0x5
  | .HYDRAULIC_LOCK => 0x6
  | .HYDRAULIC_BOOST => 0x7
  | .HYDRAULIC_BOOM_CONFLUX => 0x8
  | .HYDRAULIC_ARM_CONFLUX => 0x9
  | .HYDRAULIC_BOOM_FLOAT => 0xA
  | .MACHINE_SHUTDOWN => 0x1B
  | .MACHINE_ILLUMINATION => 0x1C
  | .MACHINE_LIGHTS => 0x2D
  | .MACHINE_HORN => 0x1E
  | .MACHINE_STROBE_LIGHT => 0x1F
  | .MACHINE_TRAVEL_ALARM => 0x20

def ControlType.ofNat? (n : Nat) : Except PyErr ControlType :=
  match n with
  | 0x5 => .ok .HYDRAULIC_QUICK_DISCONNECT
  | 0x6 => .ok .HYDRAULIC_LOCK
  | 0x7 => .ok .HYDRAULIC_BOOST
  | 0x8 => .ok .HYDRAULIC_BOOM_CONFLUX
  | 0x9 => .ok .HYDRAULIC_ARM_CONFLUX
  | 0xA => .ok .HYDRAULIC_BOOM_FLOAT
  | 0x1B => .ok .MACHINE_SHUTDOWN
  | 0x1C => .ok .MACHINE_ILLUMINATION
  | 0x2D => .ok .MACHINE_LIGHTS
  | 0x1E => .ok .MACHINE_HORN
  | 0x1F => .ok .MACHINE_STROBE_LIGHT
  | 0x20 => .ok .MACHINE_TRAVEL_ALARM
  | _ => .error (.valueError "Unknown control type code")

/-- `Control` payload model. -/
structure Control where
  type : ControlType
  value : Bool
  deriving DecidableEq, Repr

/-- `Control.to_bytes`: `bytes([self.type.value, self.value])`. -/
def Control.to_bytes (c : Control) : List Nat :=
  [c.type.toNat, if c.value then 1 else 0]

/-- `Control.from_bytes`. -/
def Control.from_bytes (data : List Nat) : Except PyErr Control := do
  let b0 ← pyIndex data 0
  let t ← ControlType.ofNat? b0
  let b1 ← pyIndex data 1
  .ok ⟨t, b1 ≠ 0⟩

/-- `Instance` payload model. The `id` is the 16-byte UUID; `model` and
`serial_number` are the UTF-8 byte sequences of the Python strings. -/
structure Instance where
  id : List Nat
  model : List Nat
  machine_type : Nat
  version : Nat × Nat × Nat
  serial_number : List Nat
  deriving DecidableEq, Repr

/-- `Instance.from_bytes`: `UUID(bytes=data[:16])` raises `ValueError` unless
exactly 16 bytes are available; `struct.unpack("BBB", data[17:20])` requires the
slice to hold exactly three bytes. String slices never raise in Python. -/
def Instance.from_bytes (data : List Nat) : Except PyErr Instance := do
  let idBytes := data.take 16
  if idBytes.length ≠ 16 then throw (.valueError "bytes is not a 16-char string")
  let machine_type ← pyIndex data 16
  let v0 ← pyIndex data 17
  let v1 ← pyIndex data 18
  let v2 ← pyIndex data 19
  if ((data.drop 17).take 3).length ≠ 3 then throw .structError
  let model_length ← unpackU16 ((data.drop 20).take 2)
  let model := (data.drop 22).take model_length
  let serial_number_length ← unpackU16 ((data.drop (22 + model_length)).take 2)
  let serial_number := (data.drop (24 + model_length)).take serial_number_length
  .ok ⟨idBytes, model, machine_type, (v0, v1, v2), serial_number⟩

/-- `Instance.to_bytes`. -/
def Instance.to_bytes (i : Instance) : Except PyErr (List Nat) := do
  let mt ← pack8 i.machine_type
  let v0 ← pack8 i.version.1
  let v1 ← pack8 i.version.2.1
  let v2 ← pack8 i.version.2.2
  let ml ← pack16 i.model.length
  let sl ← pack16 i.serial_number.length
  .ok (i.id ++ mt ++ v0 ++ v1 ++ v2 ++ ml ++ i.model ++ sl ++ i.serial_number)

/-- `ModuleStatus` payload model; `name` is the UTF-8 byte sequence. -/
structure ModuleStatus where
  name : List Nat
  state : Nat
  error_code : Nat
  deriving DecidableEq, Repr

/-- `ModuleStatus.from_bytes`. -/
def ModuleStatus.from_bytes (data : List Nat) : Except PyErr ModuleStatus := do
  let name_length ← unpackU16 (data.take 2)
  let name := (data.drop 2).take name_length
  let state ← pyIndex data (2 + name_length)
  let error_code ← pyIndex data (3 + name_length)
  .ok ⟨name, state, error_code⟩

/-- `ModuleStatus.to_bytes`. -/
def ModuleStatus.to_bytes (m : ModuleStatus) : Except PyErr (List Nat) := do
  let nl ← pack16 m.name.length
  let st ← pack8 m.state
  let ec ← pack8 m.error_code
  .ok (nl ++ m.name ++ st ++ ec)

/-- `EngineState` enumeration. -/
inductive EngineState where
  | NOREQUEST | STARTING | STOPPING | REQUEST
  deriving DecidableEq, Repr

def EngineState.toNat : EngineState → Nat
  | .NOREQUEST => 0x0
  | .STARTING => 0x01
  | .STOPPING => 0x02
  | .REQUEST => 0x10

def EngineState.ofNat? (n : Nat) : Except PyErr EngineState :=
  match n with
  | 0x0 => .ok .NOREQUEST
  | 0x01 => .ok .STARTING
  | 0x02 => .ok .STOPPING
  | 0x10 => .ok .REQUEST
  | _ => .error (.valueError "Unknown engine state code")

/-- `Engine` payload model. -/
structure Engine where
  driver_demand : Nat
  actual_engine : Nat
  rpm : Nat
  state : EngineState
  deriving DecidableEq, Repr

/-- `Engine.from_bytes`; the pydantic field bound `rpm <= 8000` makes the
constructor raise a validation error for larger decoded values. -/
def Engine.from_bytes (data : List Nat) : Except PyErr Engine := do
  let driver_demand ← pyIndex data 0
  let actual_engine ← pyIndex data 1
  let rpm ← unpackU16 ((data.drop 2).take 2)
  let b4 ← pyIndex data 4
  let state ← EngineState.ofNat? b4
  if rpm > 8000 then throw .validationError
  .ok ⟨driver_demand, actual_engine, rpm, state⟩

/-- `Engine.to_bytes`. -/
def Engine.to_bytes (e : Engine) : Except PyErr (List Nat) := do
  let dd ← pack8 e.driver_demand
  let ae ← pack8 e.actual_engine
  let r ← pack16 e.rpm
  let st ← pack8 e.state.toNat
  .ok (dd ++ ae ++ r ++ st)

/-- `MotionType` enumeration. -/
inductive MotionType where
  | STOP_ALL | RESUME_ALL | RESET_ALL | STRAIGHT_DRIVE | CHANGE
  deriving DecidableEq, Repr

def MotionType.toNat : MotionType → Nat
  | .STOP_ALL => 0x00
  | .RESUME_ALL => 0x01
  | .RESET_ALL => 0x02
  | .STRAIGHT_DRIVE => 0x05
  | .CHANGE => 0x10

def MotionType.ofNat? (n : Nat) : Except PyErr MotionType :=
  match n with
  | 0x00 => .ok .STOP_ALL
  | 0x01 => .ok .RESUME_ALL
  | 0x02 => .ok .RESET_ALL
  | 0x05 => .ok .STRAIGHT_DRIVE
  | 0x10 => .ok .CHANGE
  | _ => .error (.valueError "Unknown motion type code")

/-- `MotionChangeSet` model. -/
structure MotionChangeSet where
  actuator : Nat
  value : Int
  deriving DecidableEq, Repr

/-- `MotionChangeSet.from_bytes`: unpacks `>H` from `data[0:2]` and `>h` from
`data[2:4]`; a slice shorter than two bytes raises `struct.error`. -/
def MotionChangeSet.from_bytes (data : List Nat) : Except PyErr MotionChangeSet := do
  let actuator ← unpackU16 (data.take 2)
  let value ← unpackI16 ((data.drop 2).take 2)
  .ok ⟨actuator, value⟩

/-- `MotionChangeSet.to_bytes`. -/
def MotionChangeSet.to_bytes (c : MotionChangeSet) : Except PyErr (List Nat) := do
  let a ← pack16 c.actuator
  let v ← packI16 c.value
  .ok (a ++ v)

/-- `MotionStraightDrive` model. -/
structure MotionStraightDrive where
  value : Int
  deriving DecidableEq, Repr

def MotionStraightDrive.from_bytes (data : List Nat) : Except PyErr MotionStraightDrive := do
  let value ← unpackI16 (data.take 2)
  .ok ⟨value⟩

def MotionStraightDrive.to_bytes (s : MotionStraightDrive) : Except PyErr (List Nat) :=
  packI16 s.value

/-- `Motion` model (the source spells the field `straigh_drive`). -/
structure Motion where
  type : MotionType
  straigh_drive : Option MotionStraightDrive
  change : Option (List MotionChangeSet)
  deriving DecidableEq, Repr

/-- The `while offset < len(data)` loop of `Motion.from_bytes` for the CHANGE
branch: change sets are parsed in 4-byte strides starting at the given list. -/
def parseChangeSets : List Nat → Except PyErr (List MotionChangeSet)
  | [] => .ok []
  | [a] => do
      let c ← MotionChangeSet.from_bytes [a]
      .ok [c]
  | [a, b] => do
      let c ← MotionChangeSet.from_bytes [a, b]
      .ok [c]
  | [a, b, c] => do
      let cs ← MotionChangeSet.from_bytes [a, b, c]
      .ok [cs]
  | a :: b :: c :: d :: rest => do
      let cs ← MotionChangeSet.from_bytes [a, b, c, d]
      let more ← parseChangeSets rest
      .ok (cs :: more)

/-- `Motion.from_bytes`: note the CHANGE branch starts parsing change sets at
offset 1, directly after the type byte. -/
def Motion.from_bytes (data : List Nat) : Except PyErr Motion := do
  let b0 ← pyIndex data 0
  let t ← MotionType.ofNat? b0
  match t with
  | .CHANGE => do
      let change ← parseChangeSets (data.drop 1)
      .ok ⟨t, none, some change⟩
  | .STRAIGHT_DRIVE => do
      let sd ← MotionStraightDrive.from_bytes (data.drop 1)
      .ok ⟨t, some sd, none⟩
  | _ => .ok ⟨t, none, none⟩

/-- `Motion.to_bytes`: `if self.change:` is Python truthiness, so an empty
change list falls through; the CHANGE encoding is type byte, then a count
byte `len(self.change)`, then the packed change sets. -/
def Motion.to_bytes (m : Motion) : Except PyErr (List Nat) :=
  match m.change, m.straigh_drive with
  | some (c :: cs), _ => do
      let t ← pack8 m.type.toNat
      let n ← pack8 (c :: cs).length
      let body ← (c :: cs).mapM MotionChangeSet.to_bytes
      .ok (t ++ n ++ body.flatten)
  | _, some sd => do
      let t ← pack8 m.type.toNat
      let b ← sd.to_bytes
      .ok (t ++ b)
  | _, _ => pack8 m.type.toNat

/-- `asyncio.StreamReader.readexactly(n)`: returns exactly `n` bytes or raises
`IncompleteReadError` when the stream ends first; the remainder of the buffer
models the rest of the stream. -/
def readexactly (n : Nat) (buf : List Nat) : Except PyErr (List Nat × List Nat) :=
  if buf.length < n then .error .incompleteRead
  else .ok (buf.take n, buf.drop n)

/-- `GlonaxStreamWriter.write`: emits `"LXR" + version(3) + type + big-endian
u16 length + 3 zero bytes + payload`. -/
def GlonaxStreamWriter.write (t : MessageType) (data : List Nat) :
    Except PyErr (List Nat) := do
  let len ← pack16 data.length
  .ok ([76, 88, 82, 3] ++ [t.toNat] ++ len ++ [0, 0, 0] ++ data)

/-- `GlonaxStreamReader.read`: reads the 10-byte header, validates magic
(`header[:3]`), version (`header[3:4]`), type code (`header[4:5]`) and
reserved padding (`header[7:10]`), then reads the declared payload.  The
header returned by `readexactly 10` is destructured into its ten bytes (the
catch-all arm is unreachable).  The final length equality check is kept from
the source although `readexactly` makes it unreachable. -/
def GlonaxStreamReader.read (buf : List Nat) :
    Except PyErr (MessageType × List Nat × List Nat) := do
  let (header, rest) ← readexactly 10 buf
  match header with
  | [b0, b1, b2, b3, b4, b5, b6, b7, b8, b9] => do
      if [b0, b1, b2] ≠ [76, 88, 82] then throw (.protocolError "Invalid header received")
      if [b3] ≠ [3] then throw (.protocolError "Invalid protocol version")
      let tb ← unpackU8 [b4]
      let message_type ← MessageType.ofNat? tb
      let message_length ← unpackU16 [b5, b6]
      if [b7, b8, b9] ≠ [0, 0, 0] then throw (.protocolError "Invalid header padding")
      let (message, rest') ← readexactly message_length rest
      if message.length ≠ message_length then
        throw (.protocolError "Invalid message length")
      .ok (message_type, message, rest')
  | _ => .error .incompleteRead

/-- `GlonaxStreamReader.read_frame`: identical validation except that the type
byte is not decoded (that line is commented out in the source); returns the
raw `header + message` bytes. -/
def GlonaxStreamReader.read_frame (buf : List Nat) :
    Except PyErr (List Nat × List Nat) := do
  let (header, rest) ← readexactly 10 buf
  match header with
  | [b0, b1, b2, b3, b4, b5, b6, b7, b8, b9] => do
      if [b0, b1, b2] ≠ [76, 88, 82] then throw (.protocolError "Invalid header received")
      if [b3] ≠ [3] then throw (.protocolError "Invalid protocol version")
      let message_length ← unpackU16 [b5, b6]
      if [b7, b8, b9] ≠ [0, 0, 0] then throw (.protocolError "Invalid header padding")
      let (message, rest') ← readexactly message_length rest
      if message.length ≠ message_length then
        throw (.protocolError "Invalid message length")
      .ok ([b0, b1, b2, b3, b4, b5, b6, b7, b8, b9] ++ message, rest')
  | _ => .error .incompleteRead

/-- `SessionFrame.to_bytes`: a version byte 3 followed by the UTF-8 user-agent
name. -/
def SessionFrame.to_bytes (name : List Nat) : List Nat :=
  3 :: name

/-- `Session.handshake`: writes one SESSION frame carrying the user agent and
reads exactly one frame back.  The source only acts when that frame is
INSTANCE (`if message_type == MessageType.INSTANCE: ...` with no `else`), so
any other type leaves the session's `instance` attribute unset and the
coroutine returns normally.  Result: the bytes written and the instance
attribute (`none` = never assigned). -/
def Session.handshake (userAgent : List Nat) (buf : List Nat) :
    Except PyErr (List Nat × Option Instance) := do
  let sent ← GlonaxStreamWriter.write .SESSION (SessionFrame.to_bytes userAgent)
  let (message_type, message, _) ← GlonaxStreamReader.read buf
  if message_type = .INSTANCE then
    let inst ← Instance.from_bytes message
    .ok (sent, some inst)
  else
    .ok (sent, none)

/-- `ChannelMessageType` from `src/glonax/message.py`. -/
inductive ChannelMessageType where
  | COMMAND | SIGNAL | CONTROL | PEER | ERROR
  deriving DecidableEq, Repr

/-- The payload union of `Message` (the variants the message factory can
produce). -/
inductive Payload where
  | control (c : Control)
  | motion (m : Motion)
  | inst (i : Instance)
  | status (s : ModuleStatus)
  | engine (e : Engine)
  deriving DecidableEq, Repr

/-- `Message` envelope. -/
structure Message where
  type : ChannelMessageType
  topic : String
  payload : Payload
  deriving DecidableEq, Repr

/-- `Session.__message_factory`: INSTANCE/STATUS/ENGINE/MOTION decode into a
SIGNAL message; GNSS/ROTATOR/CONTROL/TARGET/ACTOR raise `NotImplementedError`;
REQUEST/SIGNAL/SHUTDOWN/ECHO/ERROR raise `DeprecationWarning`; SESSION raises
`RuntimeError`; any other member (i.e. VMS) falls into the `case _` branch and
raises `ValueError`. -/
def Session.messageFactory (message_type : MessageType) (message : List Nat) :
    Except PyErr Message :=
  match message_type with
  | .INSTANCE => do
      let i ← Instance.from_bytes message
      .ok ⟨.SIGNAL, "instance", .inst i⟩
  | .STATUS => do
      let s ← ModuleStatus.from_bytes message
      .ok ⟨.SIGNAL, "status", .status s⟩
  | .ENGINE => do
      let e ← Engine.from_bytes message
      .ok ⟨.SIGNAL, "engine", .engine e⟩
  | .MOTION => do
      let m ← Motion.from_bytes message
      .ok ⟨.SIGNAL, "motion", .motion m⟩
  | .GNSS => .error (.notImplemented "ROTATOR message type not implemented")
  | .ROTATOR => .error (.notImplemented "ROTATOR message type not implemented")
  | .CONTROL => .error (.notImplemented "ROTATOR message type not implemented")
  | .TARGET => .error (.notImplemented "TARGET message type not implemented")
  | .ACTOR => .error (.notImplemented "ACTOR message type not implemented")
  | .REQUEST => .error (.deprecation "REQUEST message type is deprecated")
  | .SIGNAL => .error (.deprecation "SIGNAL message type is deprecated")
  | .SHUTDOWN => .error (.deprecation "SHUTDOWN message type is deprecated")
  | .ECHO => .error (.deprecation "ECHO message type is deprecated")
  | .ERROR => .error (.deprecation "ERROR message type is deprecated")
  | .SESSION => .error (.runtimeError "SESSION message type should not be received")
  | .VMS => .error (.valueError "Unknown message type")

/-- `Session.recv`: reads one frame and maps it through the factory, catching
only `NotImplementedError` and `DeprecationWarning` (which become `none`);
every other exception — including the `ValueError` raised inside
`GlonaxStreamReader.read` for an unknown type code — propagates. -/
def Session.recv (buf : List Nat) :
    Except PyErr (Option Message × List Nat) := do
  let (message_type, message, rest) ← GlonaxStreamReader.read buf
  match Session.messageFactory message_type message with
  | .ok m => .ok (some m, rest)
  | .error (.notImplemented _) => .ok (none, rest)
  | .error (.deprecation _) => .ok (none, rest)
  | .error e => .error e

/-! ### JSON-RPC engines

Two revisions exist in the repository: `src/glonax_agent/jsonrpc.py` (embedded
in namespace `GAgent`) and `src/rpc.py` (embedded in namespace `Rpc`).  JSON
values are a standard inductive; a raw string input is represented by the
outcome of `json.loads` on it (`Option Json`, `none` = `json.JSONDecodeError`),
since JSON text parsing itself is done by the Python standard library.  A
registered callable is a `Handler`: its `__name__` plus, abstracting the
parameter marshalling and the call itself (Python reflection), a function from
the request's `params` value to the call's outcome. -/

/-- JSON values. -/
inductive Json where
  | null
  | bool (b : Bool)
  | num (n : Int)
  | str (s : String)
  | arr (xs : List Json)
  | obj (fields : List (String × Json))
  deriving BEq, Repr

def Json.isNull : Json → Bool
  | .null => true
  | _ => false

/-- Outcome of calling a registered Python callable on given params: a return
value, a raised `JSONRPCRuntimeError` carrying a message, a raised `TypeError`
(wrong arity/shape), or any other exception. -/
inductive HandlerOutcome where
  | ok (v : Json)
  | runtimeErr (msg : String)
  | typeErr
  | exn
  deriving Repr

/-- A registered callable: its `__name__` and its behaviour on the request's
`params` value. -/
structure Handler where
  name : String
  run : Json → HandlerOutcome

/-- Result of `invoke`: `none` (notification, no response), a success
response, an error object, a batch list (which may contain `none` placeholder
entries), or an uncaught exception escaping `invoke` (`data.get` on a non-dict
raises `AttributeError` inside the `except` clause as well). -/
inductive RpcOut where
  | none
  | resp (result : Json) (id : Json)
  | err (id : Json) (code : Int) (msg : String)
  | batch (outs : List RpcOut)
  | crash
  deriving BEq, Repr

def RpcOut.isCrash : RpcOut → Bool
  | .crash => true
  | _ => false

/-- `[await invoke(...) for item in data]`: if any element evaluation raises
(`crash`), the exception escapes the comprehension and the enclosing `except`
clause re-raises (`data.get` on the list), so the whole call crashes. -/
def mkBatch (outs : List RpcOut) : RpcOut :=
  if outs.any RpcOut.isCrash then .crash else .batch outs

/-- `JSONRPCRequest` dataclass fields (identical in both revisions). -/
structure Request where
  method : Json
  params : Json
  id : Json
  jsonrpc : Json

/-- `JSONRPCRequest(**data)`: succeeds when the dict's keys are among the four
dataclass fields and the required `method` and `params` are present; any other
shape raises `TypeError`. Absent `id` defaults to `None`, absent `jsonrpc` to
`"2.0"`. -/
def mkRequest (fields : List (String × Json)) : Except PyErr Request :=
  if fields.all (fun kv => ["method", "params", "id", "jsonrpc"].contains kv.1)
      && (fields.lookup "method").isSome && (fields.lookup "params").isSome then
    .ok ⟨(fields.lookup "method").getD .null, (fields.lookup "params").getD .null,
         (fields.lookup "id").getD .null, (fields.lookup "jsonrpc").getD (.str "2.0")⟩
  else
    .error .typeError

/-- Python `str.strip()`: drop leading and trailing whitespace (computable
model of the string method used on `request.method`). -/
def pyStrip (s : String) : String :=
  ⟨((s.toList.dropWhile Char.isWhitespace).reverse.dropWhile Char.isWhitespace).reverse⟩

/-- Method resolution (identical in both revisions):
`method == callable.__name__ or prefix + method == callable.__name__`, first
match in iteration order wins. -/
def findHandler (handlers : List Handler) (pref : String) (method : String) :
    Option Handler :=
  handlers.find? (fun c => method == c.name || (pref ++ method) == c.name)

/-- The shape validation both revisions perform before constructing the
request: `"jsonrpc" in data and data["jsonrpc"] == "2.0" and "method" in
data`. -/
def shapeValid (fields : List (String × Json)) : Bool :=
  (match fields.lookup "jsonrpc" with
   | some (.str s) => s == "2.0"
   | _ => false)
  && (fields.lookup "method").isSome

namespace GAgent

/-- The body of `glonax_agent.jsonrpc.invoke` after shape validation, on a
dict with the given fields. `getId` is `data.get("id", None)`, used by the
`except` clauses; errors raised inside are rendered as the corresponding
JSON-RPC error objects.  Note the `JSONRPCRuntimeError` clause builds
`JSONRPCError(data.get("id", None), 32000, str(e))` — positive 32000, as
written in the source. -/
def invokeCore (handlers : List Handler) (pref : String)
    (fields : List (String × Json)) (getId : Json) : RpcOut :=
  match mkRequest fields with
  | .error _ => .err getId (-32602) "Invalid params"
  | .ok req =>
      match req.method with
      | .str m =>
          match findHandler handlers pref (pyStrip m) with
          | some h =>
              match h.run req.params with
              | .ok v => if req.id.isNull then .none else .resp v req.id
              | .runtimeErr msg => .err getId 32000 msg
              | .typeErr => .err getId (-32602) "Invalid params"
              | .exn => .err getId (-32603) "Internal error"
          | none => .err req.id (-32601) "Method not found"
      | _ => .err getId (-32603) "Internal error"

/-- One non-list input to `glonax_agent.jsonrpc.invoke`: a dict is validated
(else −32600 with `data.get("id", None)`), the optional auth callback is
consulted when both an `"auth"` member and a callback exist (failure → error
code 32000 "Unauthorized"), then the core dispatch runs.  On a non-dict,
`data.get("id", None)` raises `AttributeError` (again inside the `except`
clause), escaping `invoke`. -/
def invokeSingle (handlers : List Handler) (auth : Option (Json → Bool))
    (pref : String) (data : Json) : RpcOut :=
  match data with
  | .obj fields =>
      let getId := (fields.lookup "id").getD .null
      if shapeValid fields then
        match fields.lookup "auth", auth with
        | some a, some cb =>
            if cb a then invokeCore handlers pref fields getId
            else .err getId 32000 "Unauthorized"
        | _, _ => invokeCore handlers pref fields getId
      else
        .err getId (-32600) "Invalid Request"
  | _ => .crash

mutual

/-- `glonax_agent.jsonrpc.invoke` on an already-parsed value: a list is
recursed per element (note: the recursive call passes `prefix` but not
`auth_callback`), anything else is a single request. -/
def invokeVal (handlers : List Handler) (auth : Option (Json → Bool))
    (pref : String) : Json → RpcOut
  | .arr xs => mkBatch (invokeValList handlers pref xs)
  | data => invokeSingle handlers auth pref data

def invokeValList (handlers : List Handler) (pref : String) :
    List Json → List RpcOut
  | [] => []
  | x :: xs =>
      invokeVal handlers none pref x :: invokeValList handlers pref xs

end

/-- `glonax_agent.jsonrpc.invoke`: a string input is `json.loads`-parsed first
(`none` = `json.JSONDecodeError` → `JSONRPCParseError()`, whose constructor
hard-codes `id = 0`). -/
def invoke (handlers : List Handler) (auth : Option (Json → Bool))
    (pref : String) (input : Option Json) : RpcOut :=
  match input with
  | Option.none => .err (.num 0) (-32700) "Parse error"
  | some data => invokeVal handlers auth pref data

end GAgent

namespace Rpc

/-- The body of `rpc.invoke` after shape validation.  This revision has no
`JSONRPCRuntimeError` clause: a runtime error raised by a handler falls into
the blanket `except Exception` and becomes −32603 "Internal error". -/
def invokeCore (handlers : List Handler) (pref : String)
    (fields : List (String × Json)) (getId : Json) : RpcOut :=
  match mkRequest fields with
  | .error _ => .err getId (-32602) "Invalid params"
  | .ok req =>
      match req.method with
      | .str m =>
          match findHandler handlers pref (pyStrip m) with
          | some h =>
              match h.run req.params with
              | .ok v => if req.id.isNull then .none else .resp v req.id
              | .runtimeErr _ => .err getId (-32603) "Internal error"
              | .typeErr => .err getId (-32602) "Invalid params"
              | .exn => .err getId (-32603) "Internal error"
          | none => .err req.id (-32601) "Method not found"
      | _ => .err getId (-32603) "Internal error"

/-- One non-list input to `rpc.invoke` (no auth support in this revision). -/
def invokeSingle (handlers : List Handler) (pref : String) (data : Json) : RpcOut :=
  match data with
  | .obj fields =>
      let getId := (fields.lookup "id").getD .null
      if shapeValid fields then invokeCore handlers pref fields getId
      else .err getId (-32600) "Invalid Request"
  | _ => .crash

mutual

/-- `rpc.invoke` on an already-parsed value. -/
def invokeVal (handlers : List Handler) (pref : String) : Json → RpcOut
  | .arr xs => mkBatch (invokeValList handlers pref xs)
  | data => invokeSingle handlers pref data

def invokeValList (handlers : List Handler) (pref : String) :
    List Json → List RpcOut
  | [] => []
  | x :: xs => invokeVal handlers pref x :: invokeValList handlers pref xs

end

/-- `rpc.invoke`: same parse-error path as the other revision, with the same
hard-coded `id = 0`. -/
def invoke (handlers : List Handler) (pref : String) (input : Option Json) : RpcOut :=
  match input with
  | Option.none => .err (.num 0) (-32700) "Parse error"
  | some data => invokeVal handlers pref data

end Rpc

/-! ### RTC tunnel singleton (`src/rtc_server.py`)

The process-wide `glonax_peer_connection` slot is passed as explicit state
(`Option PeerConn`).  External collaborators are abstracted as boolean
parameters where they are reachable: `addOk` is the outcome of candidate
parsing and `addIceCandidate` inside `update_rtc`'s `try` block, `stopOk`
the outcome of `_stop()` inside `disconnect_rtc`'s.
`raise JSONRPCRuntimeError(...)` unwinds before any state mutation. -/

/-- `GlonaxPeerConnectionParams` dataclass (`src/glonax_agent/models.py`):
exactly the three fields `connection_id: int`, `video_track: int = 0` and
`user_agent: str` — in particular there is no `auth_token` field.  Python
truthiness makes `not params.connection_id` true exactly for 0. -/
structure GlonaxPeerConnectionParams where
  connection_id : Int
  video_track : Int
  user_agent : String
  deriving DecidableEq, Repr

/-- `RTCIceCandidateParams` dataclass. -/
structure RTCIceCandidateParams where
  candidate : String
  sdpMid : String
  sdpMLineIndex : Int
  usernameFragment : String
  deriving DecidableEq, Repr

/-- The live `GlonaxPeerConnection`: its bound `connection_id` and the ICE
candidates added to the underlying peer connection so far (recording the only
mutation `update_rtc` can perform on it). -/
structure PeerConn where
  connection_id : Int
  candidates : List RTCIceCandidateParams
  deriving DecidableEq, Repr

/-- `setup_rtc` (`src/rtc_server.py:206`): its first statement after reading
the config is `pbkdf2_sha256.verify(secret, params.auth_token)`, and
evaluating the argument `params.auth_token` raises `AttributeError`
unconditionally, because `GlonaxPeerConnectionParams` has no `auth_token`
field.  Every line below it is dead code: the auth/falsy-id/offer-type
guards, the singleton guard
`if glonax_peer_connection is not None: raise JSONRPCRuntimeError("RTC
connection already established")`, the `try` block constructing the peer
connection, and the sole assignment of the active slot
(`glonax_peer_connection = peer_connection`, line 237).  The handler
therefore always raises `AttributeError` with the state untouched, and the
dispatcher's blanket `except Exception` turns that into −32603. -/
def setup_rtc (params : GlonaxPeerConnectionParams) (offerType : String)
    (st : Option PeerConn) : Option PeerConn × Except PyErr String :=
  (st, .error .attributeError)

/-- `update_rtc`: falsy-id check, no-connection check, id-match check and
empty-candidate check all precede the `try` block that touches the peer
connection. -/
def update_rtc (params : GlonaxPeerConnectionParams)
    (cand : RTCIceCandidateParams) (addOk : Bool)
    (st : Option PeerConn) : Option PeerConn × Except PyErr Unit :=
  if params.connection_id = 0 then (st, .error (.runtimeError "No connection ID"))
  else
    match st with
    | none => (none, .error (.runtimeError "No RTC connection established"))
    | some c =>
        if params.connection_id ≠ c.connection_id then
          (some c, .error (.runtimeError
            ("Invalid connection ID " ++ toString params.connection_id ++
             ", current connection ID " ++ toString c.connection_id)))
        else if cand.candidate = "" then
          (some c, .error (.runtimeError "No ICE candidate"))
        else if addOk then
          (some { c with candidates := c.candidates ++ [cand] }, .ok ())
        else (some c, .error (.runtimeError "Error updating RTC connection"))

/-- `disconnect_rtc`: same guards; on a match, `_stop()` then the slot is
cleared (left in place when `_stop` raises, since the assignment follows the
await). -/
def disconnect_rtc (params : GlonaxPeerConnectionParams) (stopOk : Bool)
    (st : Option PeerConn) : Option PeerConn × Except PyErr Unit :=
  if params.connection_id = 0 then (st, .error (.runtimeError "Invalid connection ID"))
  else
    match st with
    | none => (none, .error (.runtimeError "No RTC connection established"))
    | some c =>
        if params.connection_id ≠ c.connection_id then
          (some c, .error (.runtimeError "Invalid connection ID"))
        else if stopOk then (none, .ok ())
        else (some c, .error (.runtimeError "Error disconnecting RTC connection"))

/-! ### Machine-state cache and the signal pump -/

/-- The singleton `MachineService` state (`src/machine.py`): last cached
values per kind, module statuses keyed by name, and the wall-clock timestamp
of the last feed. -/
structure MachineState where
  inst : Option Instance
  engine : Option Engine
  module_status : List (List Nat × ModuleStatus)
  motion : Option Motion
  timestamp : Nat
  deriving DecidableEq, Repr

/-- `dict.__setitem__`-style update on the assoc list. -/
def setStatus (l : List (List Nat × ModuleStatus)) (name : List Nat)
    (v : ModuleStatus) : List (List Nat × ModuleStatus) :=
  match l with
  | [] => [(name, v)]
  | (k, w) :: rest => if k = name then (k, v) :: rest else (k, w) :: setStatus rest name v

/-- `MachineService.feed`: stores the message in the matching slot when it
differs from the cached value (storing an equal value leaves the state
identical, so the change check only affects logging), then stamps the time.
There is no forwarding and no staleness threshold here — it is a pure cache. -/
def MachineService.feed (st : MachineState) (message : Payload) (now : Nat) :
    MachineState :=
  match message with
  | .inst i => { st with inst := some i, timestamp := now }
  | .engine e => { st with engine := some e, timestamp := now }
  | .status s => { st with module_status := setStatus st.module_status s.name s, timestamp := now }
  | .motion m => { st with motion := some m, timestamp := now }
  | .control _ => { st with timestamp := now }

/-- Modelled from the spec: the Agent Runtime's websocket signal pump and its
change detector (spec §4.5, §8 "Change suppression") are not present under
`src/` — `MachineService.feed` above only caches values.  The spec: the pump
"suppresses sending unchanged/recently-unchanged topics (same payload
suppressed unless older than a 5-second staleness threshold)".  State: the
last forwarded payload for the topic and the time it was forwarded. -/
structure PumpState where
  last : Option ModuleStatus
  lastTime : Nat
  deriving DecidableEq, Repr

/-- Modelled from the spec: one pump step at wall-clock second `now` —
forward when there is no previous send, the payload changed, or the last
send is more than 5 seconds old; on forward, record payload and time. -/
def pumpStep (st : PumpState) (now : Nat) (msg : ModuleStatus) :
    PumpState × Bool :=
  match st.last with
  | none => (⟨some msg, now⟩, true)
  | some p =>
      if p ≠ msg ∨ now - st.lastTime > 5 then (⟨some msg, now⟩, true)
      else (st, false)

/-- Modelled from the spec: run the pump over a time-stamped update sequence,
returning the forwarded-or-suppressed flag of each update in order. -/
def pumpRun (st : PumpState) : List (Nat × ModuleStatus) → List Bool
  | [] => []
  | (t, m) :: rest =>
      let (st', b) := pumpStep st t m
      b :: pumpRun st' rest

/-! ### Theorems for the claims -/

/-- Each message type's wire code decodes back to it. -/
theorem MessageType.ofNat_toNat (t : MessageType) :
    MessageType.ofNat? t.toNat = .ok t := by
  cases t <;> rfl

/-- `readexactly 10` on a buffer of at least ten bytes yields the first ten. -/
theorem readexactly_ten (a b c d e f g h i j : Nat) (rest : List Nat) :
    readexactly 10 (a :: b :: c :: d :: e :: f :: g :: h :: i :: j :: rest) =
      .ok ([a, b, c, d, e, f, g, h, i, j], rest) := by
  rw [readexactly, if_neg]
  · rfl
  · simp only [List.length_cons]
    omega

/-- `readexactly l.length` splits `l ++ rest` exactly at the boundary. -/
theorem readexactly_append (l rest : List Nat) :
    readexactly l.length (l ++ rest) = .ok (l, rest) := by
  rw [readexactly, if_neg]
  · rw [List.take_left, List.drop_left]
  · simp only [List.length_append]
    omega

/-- A well-formed frame for type `t` with the declared length matching the
payload decodes to `(t, payload, remainder)`. -/
theorem read_wellformed (t : MessageType) (payload rest : List Nat) :
    GlonaxStreamReader.read (76 :: 88 :: 82 :: 3 :: t.toNat ::
        (payload.length / 256) :: (payload.length % 256) :: 0 :: 0 :: 0 ::
        (payload ++ rest)) = .ok (t, payload, rest) := by
  have h3 : payload.length / 256 * 256 + payload.length % 256 = payload.length := by
    omega
  simp only [GlonaxStreamReader.read, readexactly_ten, bind, Except.bind, unpackU8,
    unpackU16, pure, Except.pure, h3]
  simp only [MessageType.ofNat_toNat, readexactly_append]
  simp

/-- The batch recursion of `glonax_agent.jsonrpc.invoke` maps the per-element
invocation (with the auth callback dropped) over the list, in order. -/
theorem GAgent.invokeValList_eq_map (handlers : List Handler) (pref : String) :
    ∀ xs : List Json, GAgent.invokeValList handlers pref xs =
      xs.map (GAgent.invokeVal handlers none pref) := by
  intro xs
  induction xs with
  | nil => rfl
  | cons x xs ih => simp [GAgent.invokeValList, ih]

/-- While the last forwarded payload is unchanged and at most 5 seconds old,
the pump suppresses every update and its state does not move. -/
theorem pumpRun_suppresses_while_fresh (m : ModuleStatus) (t : Nat) :
    ∀ ts : List Nat, (∀ u ∈ ts, u - t ≤ 5) →
      pumpRun ⟨some m, t⟩ (ts.map fun u => (u, m)) = ts.map fun _ => false := by
  intro ts
  induction ts with
  | nil => intro _; rfl
  | cons u us ih =>
      intro h
      have hu : u - t ≤ 5 := h u (List.mem_cons_self u us)
      simp only [List.map_cons, pumpRun, pumpStep]
      rw [if_neg]
      · exact congrArg (List.cons false) (ih fun v hv => h v (List.mem_cons_of_mem u hv))
      · push_neg
        exact ⟨rfl, by omega⟩

/-- Claim C1: decoding the bytes produced by encoding yields the original
value for every payload type, including a CHANGE motion with a non-empty
change list.  The code refutes this: for the motion
`Motion(type=CHANGE, change=[MotionChangeSet(actuator=1, value=2)])`,
`Motion.to_bytes` emits a count byte after the type byte
(`[0x10, 0x01, 0, 1, 0, 2]`), but `Motion.from_bytes` starts parsing 4-byte
change sets immediately after the type byte, so decoding is misaligned by one
byte and crashes with `struct.error` on the 1-byte tail instead of returning
the original value. -/
theorem C1_motion_change_roundtrip_crashes :
    Motion.to_bytes ⟨.CHANGE, none, some [⟨1, 2⟩]⟩ = .ok [16, 1, 0, 1, 0, 2] ∧
    Motion.from_bytes [16, 1, 0, 1, 0, 2] = .error .structError := by
  exact ⟨rfl, rfl⟩

/-- Claim C2: `Session.handshake()` fails whenever the first frame received
after the SESSION frame is of any type other than INSTANCE.  The code refutes
this: on receiving a valid STATUS frame (type `0x16`) first, `handshake`
returns normally (`.ok`) with the session's instance attribute never
assigned (`none`), because the `if message_type == MessageType.INSTANCE`
statement has no `else` branch. -/
theorem C2_handshake_non_instance_returns_normally :
    Session.handshake [97] [76, 88, 82, 3, 22, 0, 0, 0, 0, 0] =
      .ok ([76, 88, 82, 3, 16, 0, 2, 0, 0, 0, 3, 97], none) := by
  rfl

/-- Claim C4: a handler raising `JSONRPCRuntimeError` must surface as a
JSON-RPC error with code −32000 carrying the handler's message.  The code
refutes the code value: `glonax_agent.jsonrpc.invoke` returns the error with
code +32000 (the source writes `JSONRPCError(data.get("id", None), 32000,
str(e))`, without the minus sign every other error code carries), though the
message is preserved. -/
theorem C4_runtime_error_code_is_positive_32000 :
    GAgent.invoke
      [⟨"setup", fun _ => .runtimeErr "RTC connection already established"⟩]
      none "rpc_"
      (some (.obj [("jsonrpc", .str "2.0"), ("method", .str "setup"),
        ("params", .arr []), ("id", .num 7)])) =
      .err (.num 7) 32000 "RTC connection already established" := by
  simp [GAgent.invoke, GAgent.invokeVal, GAgent.invokeSingle, GAgent.invokeCore,
    mkRequest, findHandler, shapeValid, List.lookup, Json.isNull, pyStrip]

/-- Claim C5 counterexample: for a registered handler whose own name is
`foo`, the claim says a request with method `"rpc_foo"` also resolves to it.
In the code the match is `method == name or prefix + method == name`, so
method `"rpc_foo"` against name `"foo"` matches neither form and yields
MethodNotFound (−32601). -/
theorem C5_bare_handler_not_matched_by_prefixed_method :
    GAgent.invoke [⟨"foo", fun _ => .ok .null⟩] none "rpc_"
      (some (.obj [("jsonrpc", .str "2.0"), ("method", .str "rpc_foo"),
        ("params", .arr []), ("id", .num 1)])) =
      .err (.num 1) (-32601) "Method not found" := by
  simp [GAgent.invoke, GAgent.invokeVal, GAgent.invokeSingle, GAgent.invokeCore,
    mkRequest, findHandler, shapeValid, List.lookup, Json.isNull, pyStrip]

/-- Claim C7 counterexample: in a batch, elements without an `id` are claimed
to contribute no response item.  The code returns the per-element results of
the list comprehension unfiltered, so a two-element batch whose first element
is a notification yields a two-element list with a `None` placeholder first,
not a one-element list. -/
theorem C7_notification_contributes_placeholder_in_batch :
    GAgent.invoke [⟨"echo", fun p => match p with | .arr [x] => .ok x | _ => .typeErr⟩]
      none "rpc_"
      (some (.arr [
        .obj [("jsonrpc", .str "2.0"), ("method", .str "echo"),
          ("params", .arr [.str "n"])],
        .obj [("jsonrpc", .str "2.0"), ("method", .str "echo"),
          ("params", .arr [.str "a"]), ("id", .num 1)]])) =
      .batch [.none, .resp (.str "a") (.num 1)] := by
  simp [GAgent.invoke, GAgent.invokeVal, GAgent.invokeValList, GAgent.invokeSingle,
    GAgent.invokeCore, mkRequest, findHandler, shapeValid, List.lookup,
    Json.isNull, mkBatch, RpcOut.isCrash, pyStrip]

/-- Claim C8 counterexample: frames of unknown message type are claimed to
make `Session.recv()` return "no message" (`None`).  In the code an unknown
type code (here `0x99`) makes `MessageType(...)` inside
`GlonaxStreamReader.read` raise `ValueError`, and the VMS code (`0x41`),
a known enum member with no factory case, hits the `case _` branch and also
raises `ValueError`; `recv` catches only `NotImplementedError` and
`DeprecationWarning`, so both propagate. -/
theorem C8_unknown_type_propagates_error :
    Session.recv [76, 88, 82, 3, 153, 0, 0, 0, 0, 0] =
      .error (.valueError "Unknown message type code") ∧
    Session.recv [76, 88, 82, 3, 65, 0, 0, 0, 0, 0] =
      .error (.valueError "Unknown message type") := by
  exact ⟨rfl, rfl⟩

/-- Claim C10: for every input string that is not valid JSON (the
`json.loads` outcome is a decode error), `invoke` returns a parse error whose
`id` equals the integer 0 — never null and never the request's id — in both
RPC engine revisions (`glonax_agent/jsonrpc.py` and `rpc.py`, whose
`JSONRPCParseError` constructors both hard-code `id = 0`). -/
theorem C10_parse_error_id_is_integer_zero (handlers : List Handler)
    (auth : Option (Json → Bool)) (pref : String) :
    GAgent.invoke handlers auth pref Option.none =
      .err (.num 0) (-32700) "Parse error" ∧
    Rpc.invoke handlers pref Option.none =
      .err (.num 0) (-32700) "Parse error" := by
  exact ⟨rfl, rfl⟩

/-- Claim C6 counterexample: a buffer whose payload is shorter than the
declared length is claimed to raise `ProtocolError`.  In the code the payload
is read with `reader.readexactly(message_length)`, which raises
`IncompleteReadError` when the stream ends first, and the subsequent
`len(message) != message_length` check that would raise `ProtocolError` is
unreachable.  Here: a valid header declaring 5 payload bytes followed by only
3 bytes. -/
theorem C6_truncated_payload_raises_incomplete_read :
    GlonaxStreamReader.read ([76, 88, 82, 3, 1, 0, 5, 0, 0, 0] ++ [1, 2, 3]) =
      .error .incompleteRead ∧
    GlonaxStreamReader.read_frame ([76, 88, 82, 3, 1, 0, 5, 0, 0, 0] ++ [1, 2, 3]) =
      .error .incompleteRead := by
  exact ⟨rfl, rfl⟩

/-- Claim C6 as amended: wrong magic or wrong version raise `ProtocolError`,
non-zero reserved bytes raise `ProtocolError` (for `read` provided the type
byte is a recognized code, since `MessageType(...)` is evaluated before the
padding check), and a payload shorter than the declared length raises the
incomplete-read stream error rather than `ProtocolError`, in both `read` and
`read_frame`. -/
theorem C6_frame_validation_amended (m0 m1 m2 v ty l0 l1 r0 r1 r2 : Nat)
    (rest : List Nat) :
    (¬(m0 = 76 ∧ m1 = 88 ∧ m2 = 82) →
      GlonaxStreamReader.read
          (m0 :: m1 :: m2 :: v :: ty :: l0 :: l1 :: r0 :: r1 :: r2 :: rest) =
        .error (.protocolError "Invalid header received") ∧
      GlonaxStreamReader.read_frame
          (m0 :: m1 :: m2 :: v :: ty :: l0 :: l1 :: r0 :: r1 :: r2 :: rest) =
        .error (.protocolError "Invalid header received")) ∧
    (v ≠ 3 →
      GlonaxStreamReader.read
          (76 :: 88 :: 82 :: v :: ty :: l0 :: l1 :: r0 :: r1 :: r2 :: rest) =
        .error (.protocolError "Invalid protocol version") ∧
      GlonaxStreamReader.read_frame
          (76 :: 88 :: 82 :: v :: ty :: l0 :: l1 :: r0 :: r1 :: r2 :: rest) =
        .error (.protocolError "Invalid protocol version")) ∧
    (¬(r0 = 0 ∧ r1 = 0 ∧ r2 = 0) →
      (∀ t, MessageType.ofNat? ty = .ok t →
        GlonaxStreamReader.read
            (76 :: 88 :: 82 :: 3 :: ty :: l0 :: l1 :: r0 :: r1 :: r2 :: rest) =
          .error (.protocolError "Invalid header padding")) ∧
      GlonaxStreamReader.read_frame
          (76 :: 88 :: 82 :: 3 :: ty :: l0 :: l1 :: r0 :: r1 :: r2 :: rest) =
        .error (.protocolError "Invalid header padding")) ∧
    (rest.length < l0 * 256 + l1 →
      (∀ t, MessageType.ofNat? ty = .ok t →
        GlonaxStreamReader.read
            (76 :: 88 :: 82 :: 3 :: ty :: l0 :: l1 :: 0 :: 0 :: 0 :: rest) =
          .error .incompleteRead) ∧
      GlonaxStreamReader.read_frame
          (76 :: 88 :: 82 :: 3 :: ty :: l0 :: l1 :: 0 :: 0 :: 0 :: rest) =
        .error .incompleteRead) := by
  refine ⟨fun hmag => ⟨?_, ?_⟩, fun hv => ⟨?_, ?_⟩, fun hpad => ⟨fun t ht => ?_, ?_⟩,
    fun hlt => ⟨fun t ht => ?_, ?_⟩⟩
  · simp only [GlonaxStreamReader.read, readexactly_ten, bind, Except.bind]
    rw [if_pos (by simpa using hmag)]
  · simp only [GlonaxStreamReader.read_frame, readexactly_ten, bind, Except.bind]
    rw [if_pos (by simpa using hmag)]
  · simp only [GlonaxStreamReader.read, readexactly_ten, bind, Except.bind]
    rw [if_neg (by simp), if_pos (by simpa using hv)]
    rfl
  · simp only [GlonaxStreamReader.read_frame, readexactly_ten, bind, Except.bind]
    rw [if_neg (by simp), if_pos (by simpa using hv)]
    rfl
  · simp only [GlonaxStreamReader.read, readexactly_ten, bind, Except.bind]
    rw [if_neg (by simp)]
    simp only [pure, Except.pure]
    rw [if_neg (by simp)]
    simp only [pure, Except.pure, unpackU8, unpackU16, ht]
    rw [if_pos (by simpa using hpad)]
  · simp only [GlonaxStreamReader.read_frame, readexactly_ten, bind, Except.bind]
    rw [if_neg (by simp)]
    simp only [pure, Except.pure]
    rw [if_neg (by simp)]
    simp only [pure, Except.pure, unpackU16]
    rw [if_pos (by simpa using hpad)]
  · simp only [GlonaxStreamReader.read, readexactly_ten, bind, Except.bind]
    rw [if_neg (by simp)]
    simp only [pure, Except.pure]
    rw [if_neg (by simp)]
    simp only [pure, Except.pure, unpackU8, unpackU16, ht]
    rw [if_neg (by simp)]
    rw [readexactly, if_pos hlt]
  · simp only [GlonaxStreamReader.read_frame, readexactly_ten, bind, Except.bind]
    rw [if_neg (by simp)]
    simp only [pure, Except.pure]
    rw [if_neg (by simp)]
    simp only [pure, Except.pure, unpackU16]
    rw [if_neg (by simp)]
    rw [readexactly, if_pos hlt]

/-- Witness for the amended C6 theorem: each validation failure at a concrete
buffer. -/
theorem C6_frame_validation_amended_witness :
    GlonaxStreamReader.read [0, 88, 82, 3, 1, 0, 0, 0, 0, 0] =
      .error (.protocolError "Invalid header received") ∧
    GlonaxStreamReader.read [76, 88, 82, 4, 1, 0, 0, 0, 0, 0] =
      .error (.protocolError "Invalid protocol version") ∧
    GlonaxStreamReader.read [76, 88, 82, 3, 1, 0, 0, 9, 0, 0] =
      .error (.protocolError "Invalid header padding") ∧
    GlonaxStreamReader.read (76 :: 88 :: 82 :: 3 :: 1 :: 0 :: 5 :: 0 :: 0 :: 0 :: [1, 2, 3]) =
      .error .incompleteRead := by
  refine ⟨((C6_frame_validation_amended 0 88 82 3 1 0 0 0 0 0 []).1 (by decide)).1,
    ((C6_frame_validation_amended 76 88 82 4 1 0 0 0 0 0 []).2.1 (by decide)).1,
    ((C6_frame_validation_amended 76 88 82 3 1 0 0 9 0 0 []).2.2.1 (by decide)).1 .ECHO rfl,
    ((C6_frame_validation_amended 76 88 82 3 1 0 5 0 0 0 [1, 2, 3]).2.2.2 (by decide)).1 .ECHO rfl⟩

/-- Claim C3: a second `setup_rtc` while a tunnel is active is claimed to
return an application-level RPC error (a `JSONRPCRuntimeError`, code
−32000).  The code refutes this: in `src/rtc_server.py` every `setup_rtc`
call — first or second — raises `AttributeError` at `params.auth_token`
(the dataclass has no such field) before any guard runs, so the dispatcher
surfaces a −32603 framework internal error, never an application error, and
it leaves the state unchanged (every path that could assign the active slot
is equally dead, so no tunnel can ever become active through this handler).
First conjunct: `setup_rtc` raises `AttributeError` for every input with the
slot untouched; second conjunct: the dispatcher turns a handler raising a
non-`JSONRPCRuntimeError` exception into −32603 "Internal error". -/
theorem C3_setup_rtc_auth_attribute_error :
    (∀ (params : GlonaxPeerConnectionParams) (offerType : String)
        (st : Option PeerConn),
      setup_rtc params offerType st = (st, .error .attributeError)) ∧
    GAgent.invoke [⟨"setup_rtc", fun _ => .exn⟩] none "rpc_"
      (some (.obj [("jsonrpc", .str "2.0"), ("method", .str "setup_rtc"),
        ("params", .arr [.obj [("connection_id", .num 5)]]), ("id", .num 3)])) =
      .err (.num 3) (-32603) "Internal error" := by
  constructor
  · intro params offerType st
    rfl
  · simp [GAgent.invoke, GAgent.invokeVal, GAgent.invokeSingle, GAgent.invokeCore,
      mkRequest, findHandler, shapeValid, List.lookup, pyStrip]

/-- Claim C5 as amended: prefix resolution works the other way around — a
handler registered under the prefixed name `rpc_foo` resolves from both
method `"foo"` and method `"rpc_foo"` (first conjunct: both invocations are
identical; second: a successful call responds), while a handler whose own
name is bare `foo` is reachable only by method `"foo"` (the counterexample
theorem); a method matching no registered handler under either form yields
MethodNotFound with code −32601. -/
theorem C5_resolution_amended :
    (∀ (f : Json → HandlerOutcome) (p i : Json),
      GAgent.invoke [⟨"rpc_foo", f⟩] none "rpc_"
        (some (.obj [("jsonrpc", .str "2.0"), ("method", .str "foo"),
          ("params", p), ("id", i)])) =
      GAgent.invoke [⟨"rpc_foo", f⟩] none "rpc_"
        (some (.obj [("jsonrpc", .str "2.0"), ("method", .str "rpc_foo"),
          ("params", p), ("id", i)]))) ∧
    (∀ (v p : Json), GAgent.invoke [⟨"rpc_foo", fun _ => .ok v⟩] none "rpc_"
        (some (.obj [("jsonrpc", .str "2.0"), ("method", .str "foo"),
          ("params", p), ("id", .num 1)])) = .resp v (.num 1)) ∧
    (∀ (handlers : List Handler) (m : String) (p i : Json),
      (∀ h ∈ handlers, pyStrip m ≠ h.name ∧ "rpc_" ++ pyStrip m ≠ h.name) →
      GAgent.invoke handlers none "rpc_"
        (some (.obj [("jsonrpc", .str "2.0"), ("method", .str m),
          ("params", p), ("id", i)])) = .err i (-32601) "Method not found") := by
  refine ⟨fun f p i => ?_, fun v p => ?_, fun handlers m p i hnf => ?_⟩
  · simp [GAgent.invoke, GAgent.invokeVal, GAgent.invokeSingle, GAgent.invokeCore,
      mkRequest, findHandler, shapeValid, List.lookup, pyStrip]
  · simp [GAgent.invoke, GAgent.invokeVal, GAgent.invokeSingle, GAgent.invokeCore,
      mkRequest, findHandler, shapeValid, List.lookup, Json.isNull, pyStrip]
  · have hfind : findHandler handlers "rpc_" (pyStrip m) = none := by
      rw [findHandler, List.find?_eq_none]
      intro h hm
      simp only [Bool.or_eq_true, beq_iff_eq]
      push_neg
      exact ⟨(hnf h hm).1, (hnf h hm).2⟩
    simp [GAgent.invoke, GAgent.invokeVal, GAgent.invokeSingle, GAgent.invokeCore,
      mkRequest, shapeValid, List.lookup, hfind]

/-- Witness for the amended C5 theorem: the `rpc_foo` handler answers method
`"foo"`, and an empty registry yields −32601. -/
theorem C5_resolution_amended_witness :
    GAgent.invoke [⟨"rpc_foo", fun _ => .ok (.str "hit")⟩] none "rpc_"
      (some (.obj [("jsonrpc", .str "2.0"), ("method", .str "foo"),
        ("params", .arr []), ("id", .num 1)])) = .resp (.str "hit") (.num 1) ∧
    GAgent.invoke [] none "rpc_"
      (some (.obj [("jsonrpc", .str "2.0"), ("method", .str "bogus"),
        ("params", .arr []), ("id", .num 2)])) =
      .err (.num 2) (-32601) "Method not found" := by
  exact ⟨C5_resolution_amended.2.1 (.str "hit") (.arr []),
    C5_resolution_amended.2.2 [] "bogus" (.arr []) (.num 2)
      (fun h hm => absurd hm (List.not_mem_nil h))⟩

/-- Claim C7 as amended: a single request without an `id` produces no
response even when the handler succeeds; a batch returns one result per
element in input-list order (with the auth callback dropped on recursion),
where an id-less element contributes a `None` placeholder entry rather than
being omitted — provided no element makes the call crash. -/
theorem C7_batch_and_notification_amended :
    (∀ (handlers : List Handler) (auth : Option (Json → Bool)) (xs : List Json),
      (∀ x ∈ xs, (GAgent.invokeVal handlers none "rpc_" x).isCrash = false) →
      GAgent.invoke handlers auth "rpc_" (some (.arr xs)) =
        .batch (xs.map (GAgent.invokeVal handlers none "rpc_"))) ∧
    (∀ (f : Json → HandlerOutcome) (v p : Json), f p = .ok v →
      GAgent.invoke [⟨"echo", f⟩] none "rpc_"
        (some (.obj [("jsonrpc", .str "2.0"), ("method", .str "echo"),
          ("params", p)])) = .none) := by
  constructor
  · intro handlers auth xs h
    have hany : (xs.map (GAgent.invokeVal handlers none "rpc_")).any
        RpcOut.isCrash = false := by
      rw [List.any_eq_false]
      intro x hx
      obtain ⟨y, hy, rfl⟩ := List.mem_map.1 hx
      simp [h y hy]
    simp only [GAgent.invoke, GAgent.invokeVal, GAgent.invokeValList_eq_map, mkBatch,
      hany, Bool.false_eq_true, if_false]
  · intro f v p h
    simp [GAgent.invoke, GAgent.invokeVal, GAgent.invokeSingle, GAgent.invokeCore,
      mkRequest, findHandler, shapeValid, List.lookup, Json.isNull, pyStrip, h]

/-- Witness for the amended C7 theorem: an empty batch maps to an empty
result list, and a concrete id-less echo request produces no response. -/
theorem C7_batch_and_notification_amended_witness :
    GAgent.invoke [] none "rpc_" (some (.arr [])) = .batch [] ∧
    GAgent.invoke [⟨"echo", fun p => match p with | .arr [x] => .ok x | _ => .typeErr⟩]
      none "rpc_"
      (some (.obj [("jsonrpc", .str "2.0"), ("method", .str "echo"),
        ("params", .arr [.str "n"])])) = .none := by
  exact ⟨C7_batch_and_notification_amended.1 [] none []
      (fun x hx => absurd hx (List.not_mem_nil x)),
    C7_batch_and_notification_amended.2 _ (.str "n") (.arr [.str "n"]) rfl⟩

/-- Claim C8 as amended: frames whose type is deprecated (ERROR, ECHO,
SHUTDOWN, REQUEST, SIGNAL) or not yet implemented (GNSS, ROTATOR, CONTROL,
TARGET, ACTOR) make `Session.recv` return "no message" (`none`); INSTANCE,
STATUS, ENGINE and MOTION frames produce a typed SIGNAL message; but a
SESSION frame raises `RuntimeError`, and unknown type codes (including the
VMS member, which has no factory case) propagate `ValueError` (the
counterexample theorem) rather than returning `none`. -/
theorem C8_swallow_amended (t : MessageType) (payload rest : List Nat)
    (hlen : payload.length < 65536)
    (ht : t = .GNSS ∨ t = .ROTATOR ∨ t = .CONTROL ∨ t = .TARGET ∨ t = .ACTOR ∨
      t = .REQUEST ∨ t = .SIGNAL ∨ t = .SHUTDOWN ∨ t = .ECHO ∨ t = .ERROR) :
    Session.recv (76 :: 88 :: 82 :: 3 :: t.toNat :: (payload.length / 256) ::
        (payload.length % 256) :: 0 :: 0 :: 0 :: (payload ++ rest)) =
      .ok (none, rest) ∧
    Session.recv [76, 88, 82, 3, 16, 0, 0, 0, 0, 0] =
      .error (.runtimeError "SESSION message type should not be received") ∧
    Session.recv ([76, 88, 82, 3, 21, 0, 24, 0, 0, 0] ++
        [0, 0, 0, 0, 0, 0, 0, 0, 0, 0, 0, 0, 0, 0, 0, 0] ++
        [1, 1, 2, 3, 0, 0, 0, 0]) =
      .ok (some ⟨.SIGNAL, "instance",
        .inst ⟨[0, 0, 0, 0, 0, 0, 0, 0, 0, 0, 0, 0, 0, 0, 0, 0], [], 1,
          (1, 2, 3), []⟩⟩, []) ∧
    Session.recv ([76, 88, 82, 3, 22, 0, 7, 0, 0, 0] ++
        [0, 3, 101, 110, 103, 1, 0]) =
      .ok (some ⟨.SIGNAL, "status", .status ⟨[101, 110, 103], 1, 0⟩⟩, []) ∧
    Session.recv ([76, 88, 82, 3, 67, 0, 5, 0, 0, 0] ++ [92, 48, 5, 10, 16]) =
      .ok (some ⟨.SIGNAL, "engine", .engine ⟨92, 48, 1290, .REQUEST⟩⟩, []) ∧
    Session.recv ([76, 88, 82, 3, 32, 0, 1, 0, 0, 0] ++ [0]) =
      .ok (some ⟨.SIGNAL, "motion", .motion ⟨.STOP_ALL, none, none⟩⟩, []) := by
  refine ⟨?_, rfl, rfl, rfl, rfl, rfl⟩
  simp only [Session.recv, read_wellformed t payload rest, bind, Except.bind]
  rcases ht with rfl | rfl | rfl | rfl | rfl | rfl | rfl | rfl | rfl | rfl <;> rfl

/-- Witness for the amended C8 theorem: an empty-payload ECHO (deprecated)
frame is swallowed. -/
theorem C8_swallow_amended_witness :
    Session.recv [76, 88, 82, 3, 1, 0, 0, 0, 0, 0] = .ok (none, []) := by
  exact (C8_swallow_amended .ECHO [] [] (by decide) (by decide)).1

/-- Claim C9 (spec-modelled pump): feeding the change detector a sequence of
identical ModuleStatus updates whose later arrivals are within 5 seconds of
the first forwards only the first; an identical update arriving more than 5
seconds after the last forwarded one is forwarded again. -/
theorem C9_change_suppression (m : ModuleStatus) (t tLate : Nat) (ts : List Nat)
    (hfresh : ∀ u ∈ ts, u - t ≤ 5) (hstale : tLate - t > 5) :
    pumpRun ⟨none, 0⟩ ((t, m) :: ts.map fun u => (u, m)) =
      true :: ts.map (fun _ => false) ∧
    pumpRun ⟨some m, t⟩ [(tLate, m)] = [true] := by
  constructor
  · simp only [pumpRun, pumpStep]
    exact congrArg (List.cons true) (pumpRun_suppresses_while_fresh m t ts hfresh)
  · simp only [pumpRun, pumpStep]
    rw [if_pos (Or.inr hstale)]

/-- Witness for the C9 theorem: identical updates at seconds 0, 1, 3 forward
only the first; the same update at second 6 is forwarded again. -/
theorem C9_change_suppression_witness :
    pumpRun ⟨none, 0⟩ [(0, ⟨[101], 1, 0⟩), (1, ⟨[101], 1, 0⟩), (3, ⟨[101], 1, 0⟩)] =
      [true, false, false] ∧
    pumpRun ⟨some ⟨[101], 1, 0⟩, 0⟩ [(6, ⟨[101], 1, 0⟩)] = [true] := by
  have h := C9_change_suppression ⟨[101], 1, 0⟩ 0 6 [1, 3] (by decide) (by decide)
  exact ⟨h.1, h.2⟩

end Glonax
